import Mathlib

/-!
Shallow embedding of the tax computation engine of `src/tax/tax.go`
(package `tax` of AnnaCarter465/assessment-tax).

Go `float64` amounts are modelled as exact rationals (`ℚ`); the Go map
`Allowances` is modelled as an association list of key/amount pairs
(Go map keys are unique; all quantities derived from the map here are
sums over its entries, which are order independent).
-/

namespace TaxGo

/-- Embeds Go `type Rate struct { Percentage float64; Max float64; Label string }`
(src/tax/tax.go lines 3-7). `Max` is the bracket upper bound, with `-1` as the
sentinel for the unbounded bracket. -/
structure Rate where
  Percentage : ℚ
  Max : ℚ
  Label : String
deriving DecidableEq

/-- Embeds Go `type Allowances map[string]float64` (src/tax/tax.go line 8). -/
abbrev Allowances := List (String × ℚ)

/-- Embeds Go `type TaxConfig struct` (src/tax/tax.go lines 10-14). -/
structure TaxConfig where
  Rates : List Rate
  AllowedAllowances : Allowances
  DefaultAllowances : Allowances
deriving DecidableEq

/-- Embeds Go `type Tax struct` (src/tax/tax.go lines 16-21). -/
structure Tax where
  income : ℚ
  allowances : Allowances
  taxConf : TaxConfig
  wht : ℚ
deriving DecidableEq

/-- Go map membership test `_, ok := m[k]` over the association-list model. -/
def hasKey (l : Allowances) (k : String) : Bool :=
  l.any (fun p => p.1 == k)

/-- Go map lookup `v, ok := m[k]` over the association-list model. -/
def lookupAmount (l : Allowances) (k : String) : Option ℚ :=
  (l.find? (fun p => p.1 == k)).map (fun p => p.2)

/-- Sum of all amounts of an allowance map: embeds the first loop of
`calculateTotalAllowance` (src/tax/tax.go lines 48-50), which adds every
value of `DefaultAllowances`. -/
def sumAmounts (l : Allowances) : ℚ :=
  (l.map (fun p => p.2)).sum

/-- One iteration of the second loop of `calculateTotalAllowance`
(src/tax/tax.go lines 52-74): a submitted entry is skipped when its type is in
`DefaultAllowances`, skipped when its type is not in `AllowedAllowances`, and
otherwise clamped to the allowed maximum. -/
def allowanceContribution (conf : TaxConfig) (p : String × ℚ) : ℚ :=
  if hasKey conf.DefaultAllowances p.1 then 0
  else
    match lookupAmount conf.AllowedAllowances p.1 with
    | none => 0
    | some maxAmount => if p.2 > maxAmount then maxAmount else p.2

/-- Embeds Go `func (t *Tax) calculateTotalAllowance() float64`
(src/tax/tax.go lines 45-77). -/
def calculateTotalAllowance (t : Tax) : ℚ :=
  sumAmounts t.taxConf.DefaultAllowances
    + (t.allowances.map (allowanceContribution t.taxConf)).sum

/-- Embeds Go `type TaxStatement struct { Rate Rate; Tax float64 }`
(src/tax/tax.go lines 79-82). -/
structure TaxStatement where
  Rate : Rate
  Tax : ℚ
deriving DecidableEq

/-- The bracket walk of `calculateTaxStatement` (src/tax/tax.go lines 91-125):
iterates over the rate list carrying the running `remain`, and returns the
produced statements together with the final `remain`. Each step mirrors the
three branches of the Go loop body: exhausted remainder, terminal bracket
(`netIncome <= rate.Max || rate.Max == -1`), and full-bound consumption. -/
def taxWalk (netIncome : ℚ) : List Rate → ℚ → List TaxStatement × ℚ
  | [], remain => ([], remain)
  | rate :: rest, remain =>
    if remain ≤ 0 then
      let r := taxWalk netIncome rest remain
      ({ Rate := rate, Tax := 0 } :: r.1, r.2)
    else if netIncome ≤ rate.Max ∨ rate.Max = -1 then
      let r := taxWalk netIncome rest 0
      ({ Rate := rate, Tax := remain * rate.Percentage } :: r.1, r.2)
    else
      let r := taxWalk netIncome rest (remain - rate.Max)
      ({ Rate := rate, Tax := rate.Max * rate.Percentage } :: r.1, r.2)

/-- Embeds Go `func (t *Tax) calculateTaxStatement(netIncome float64) []TaxStatement`
(src/tax/tax.go lines 84-128). The Go local `totalTax` is written but never
returned, so it is omitted. -/
def calculateTaxStatement (t : Tax) (netIncome : ℚ) : List TaxStatement :=
  (taxWalk netIncome t.taxConf.Rates netIncome).1

/-- Embeds Go `type TaxSummary struct` (src/tax/tax.go lines 130-134). The Go
`nil` slice is the empty list. -/
structure TaxSummary where
  TaxStatements : List TaxStatement
  Tax : ℚ
  Refund : ℚ
deriving DecidableEq

/-- Embeds Go `func (t *Tax) CalculateTaxSummary() TaxSummary`
(src/tax/tax.go lines 136-168). -/
def CalculateTaxSummary (t : Tax) : TaxSummary :=
  let netIncome := t.income - calculateTotalAllowance t
  if netIncome ≤ 0 then
    { TaxStatements := [], Tax := 0, Refund := t.wht }
  else
    let statements := calculateTaxStatement t netIncome
    let tax := (statements.map (fun s => s.Tax)).sum
    if tax ≤ t.wht then
      { TaxStatements := statements, Tax := 0, Refund := t.wht - tax }
    else
      { TaxStatements := statements, Tax := tax - t.wht, Refund := 0 }

/-- The pre-reconciliation total tax: the sum the Go code accumulates at
src/tax/tax.go lines 149-153 (and `0` on the early return of lines 139-145). -/
def totalTax (t : Tax) : ℚ :=
  let netIncome := t.income - calculateTotalAllowance t
  if netIncome ≤ 0 then 0
  else ((calculateTaxStatement t netIncome).map (fun s => s.Tax)).sum

/-- A concrete taxpayer with zero income and zero withholding over an empty
configuration; its net income is `0`. -/
def zeroTax : Tax :=
  { income := 0
    allowances := []
    taxConf := { Rates := [], AllowedAllowances := [], DefaultAllowances := [] }
    wht := 0 }

/-- The bracket table the repository hard-codes in its handler and tests
(src/tax/tax_test.go lines 277-283). -/
def thaiRates : List Rate :=
  [ { Percentage := 0, Max := 150000, Label := "" }
  , { Percentage := 1/10, Max := 500000, Label := "" }
  , { Percentage := 15/100, Max := 1000000, Label := "" }
  , { Percentage := 2/10, Max := 2000000, Label := "" }
  , { Percentage := 35/100, Max := -1, Label := "" } ]

/-- The input of the repository test case named `netincome < 0`
(src/tax/tax_test.go lines 176-206): income 110000, donation 100000,
withholding 20000, default personal allowance 60000. -/
def negNetTax : Tax :=
  { income := 110000
    allowances := [("donation", 100000)]
    taxConf :=
      { Rates := thaiRates
        AllowedAllowances := [("donation", 100000), ("k-receipt", 50000)]
        DefaultAllowances := [("personal", 60000)] }
    wht := 20000 }

/-- A three-bracket table used to probe the non-terminal bracket rule:
10% up to 100, 20% up to 300, then the unbounded 35% bracket. -/
def cRates : List Rate :=
  [ { Percentage := 1/10, Max := 100, Label := "" }
  , { Percentage := 2/10, Max := 300, Label := "" }
  , { Percentage := 35/100, Max := -1, Label := "" } ]

/-- A taxpayer with income 400, no allowances and no withholding over
`cRates`; its net income 400 extends beyond the second bracket. -/
def cTax : Tax :=
  { income := 400
    allowances := []
    taxConf := { Rates := cRates, AllowedAllowances := [], DefaultAllowances := [] }
    wht := 0 }

/-- Reconciliation (src/tax/tax.go lines 155-161) zeroes at least one of the
two outcome fields in every branch. -/
theorem summary_tax_eq_zero_or_refund_eq_zero (t : Tax) :
    (CalculateTaxSummary t).Tax = 0 ∨ (CalculateTaxSummary t).Refund = 0 := by
  simp only [CalculateTaxSummary]
  split
  · left; rfl
  · split
    · left; rfl
    · right; rfl

/-- C7: for every taxpayer state, the summary returned by
`CalculateTaxSummary` never has both `Tax` and `Refund` non-zero. -/
theorem C7_never_both_nonzero (t : Tax) :
    ¬ ((CalculateTaxSummary t).Tax ≠ 0 ∧ (CalculateTaxSummary t).Refund ≠ 0) := by
  rcases summary_tax_eq_zero_or_refund_eq_zero t with h | h <;>
    exact fun hc => absurd h (by tauto)

/-- C2 counterexample: with zero income and zero withholding both `Tax` and
`Refund` are zero, so it is not the case that exactly one of them is
non-zero; "exactly one of tax and refund is non-zero" fails on this input. -/
theorem C2_counterexample :
    ¬ (((CalculateTaxSummary zeroTax).Tax ≠ 0 ∧ (CalculateTaxSummary zeroTax).Refund = 0) ∨
        ((CalculateTaxSummary zeroTax).Tax = 0 ∧ (CalculateTaxSummary zeroTax).Refund ≠ 0)) := by
  norm_num [CalculateTaxSummary, zeroTax, calculateTotalAllowance, sumAmounts]

/-- C2 (amended): for every taxpayer state, at most one of `Tax` and `Refund`
in the summary returned by `CalculateTaxSummary` is non-zero: at least one of
the two fields is zero (both may be zero, e.g. when nothing was withheld and
no tax is due). -/
theorem C2_at_most_one_nonzero (t : Tax) :
    (CalculateTaxSummary t).Tax = 0 ∨ (CalculateTaxSummary t).Refund = 0 :=
  summary_tax_eq_zero_or_refund_eq_zero t

/-- C6: whenever net income (income minus total allowance) is non-positive,
`CalculateTaxSummary` returns zero tax and refunds the full withholding. -/
theorem C6_nonpos_net_full_refund (t : Tax)
    (h : t.income - calculateTotalAllowance t ≤ 0) :
    (CalculateTaxSummary t).Tax = 0 ∧ (CalculateTaxSummary t).Refund = t.wht := by
  unfold CalculateTaxSummary
  rw [if_pos h]
  exact ⟨rfl, rfl⟩

/-- C6 witness: the repository test input with income 110000 and allowances
totalling 160000 has non-positive net income, and the summary refunds the
full 20000 withholding. -/
theorem C6_witness :
    (CalculateTaxSummary negNetTax).Tax = 0 ∧
      (CalculateTaxSummary negNetTax).Refund = negNetTax.wht :=
  C6_nonpos_net_full_refund negNetTax (by
    norm_num +decide [negNetTax, calculateTotalAllowance, sumAmounts, allowanceContribution,
      hasKey, lookupAmount, thaiRates])

/-- When the remainder is already exhausted, every remaining bracket gets a
zero-tax statement and the remainder is untouched (first branch of the Go loop,
src/tax/tax.go lines 93-100). -/
theorem taxWalk_nonpos (n : ℚ) (l : List Rate) (r : ℚ) (h : r ≤ 0) :
    taxWalk n l r = (l.map (fun rate => { Rate := rate, Tax := 0 }), r) := by
  induction l with
  | nil => simp [taxWalk]
  | cons rate rest ih => simp [taxWalk, h, ih]

/-- The bracket walk over a concatenated rate list processes the first part,
then the second part starting from the remainder the first part left. -/
theorem taxWalk_append (n : ℚ) (l₁ l₂ : List Rate) (r : ℚ) :
    taxWalk n (l₁ ++ l₂) r =
      ((taxWalk n l₁ r).1 ++ (taxWalk n l₂ (taxWalk n l₁ r).2).1,
        (taxWalk n l₂ (taxWalk n l₁ r).2).2) := by
  induction l₁ generalizing r with
  | nil => simp [taxWalk]
  | cons rate rest ih =>
    simp only [List.cons_append, taxWalk]
    by_cases h1 : r ≤ 0
    · simp [h1, ih]
    · by_cases h2 : n ≤ rate.Max ∨ rate.Max = -1
      · simp [h1, h2, ih]
      · simp [h1, h2, ih]

/-- The walk emits exactly one statement per rate of the table. -/
theorem taxWalk_length (n : ℚ) (l : List Rate) (r : ℚ) :
    (taxWalk n l r).1.length = l.length := by
  induction l generalizing r with
  | nil => simp [taxWalk]
  | cons rate rest ih =>
    simp only [taxWalk]
    by_cases h1 : r ≤ 0
    · simp [h1, ih]
    · by_cases h2 : n ≤ rate.Max ∨ rate.Max = -1
      · simp [h1, h2, ih]
      · simp [h1, h2, ih]

/-- C3: on the repository's own test input `netincome < 0` (income 110000,
donation 100000, default personal allowance 60000, five configured brackets)
`CalculateTaxSummary` returns an empty statement list (the Go `nil` slice of
src/tax/tax.go line 141), not one zero-tax entry per bracket: its length is 0
while the bracket table has length 5, contradicting the claim and the
repository's own expected statements (src/tax/tax_test.go lines 184-205). -/
theorem C3_nonpos_net_empty_statements :
    (CalculateTaxSummary negNetTax).TaxStatements = [] ∧
      (CalculateTaxSummary negNetTax).TaxStatements.length = 0 ∧
      negNetTax.taxConf.Rates.length = 5 := by
  have h : negNetTax.income - calculateTotalAllowance negNetTax ≤ 0 := by
    norm_num +decide [negNetTax, calculateTotalAllowance, sumAmounts,
      allowanceContribution, hasKey, lookupAmount, thaiRates]
  refine ⟨?_, ?_, rfl⟩ <;>
    simp only [CalculateTaxSummary, if_pos h, List.length_nil]

/-- C5: the statement taxes in the summary sum to the pre-reconciliation
total tax, and the reconciled summary satisfies the signed identity
`Tax - Refund = totalTax - wht`. -/
theorem C5_sum_statements_and_signed_identity (t : Tax) :
    (((CalculateTaxSummary t).TaxStatements.map (fun s => s.Tax)).sum = totalTax t) ∧
      (CalculateTaxSummary t).Tax - (CalculateTaxSummary t).Refund = totalTax t - t.wht := by
  by_cases h1 : t.income - calculateTotalAllowance t ≤ 0
  · simp only [CalculateTaxSummary, totalTax, if_pos h1]
    simp
  · simp only [CalculateTaxSummary, totalTax, if_neg h1]
    by_cases h2 :
        ((calculateTaxStatement t (t.income - calculateTotalAllowance t)).map
          (fun s => s.Tax)).sum ≤ t.wht
    · simp only [if_pos h2]
      refine ⟨by trivial, by ring⟩
    · simp only [if_neg h2]
      refine ⟨by trivial, by ring⟩

/-- C4: at any bracket of the table where the running remainder is still
positive, if the original net income is at most the bracket's `Max`, or the
bracket carries the unbounded sentinel `Max = -1` (regardless of its
position), the entire current remainder is taxed at that bracket's
percentage, the remainder becomes 0, and every later bracket produces a
zero-tax statement; the terminal test uses the original net income `n`, not
the running remainder. -/
theorem C4_terminal_bracket (n : ℚ) (l₁ l₂ : List Rate) (rate : Rate) (r : ℚ)
    (hr : r = (taxWalk n l₁ n).2) (hpos : 0 < r)
    (hterm : n ≤ rate.Max ∨ rate.Max = -1) :
    (taxWalk n (l₁ ++ rate :: l₂) n).1 =
      (taxWalk n l₁ n).1 ++
        { Rate := rate, Tax := r * rate.Percentage } ::
          l₂.map (fun q => { Rate := q, Tax := 0 }) := by
  rw [taxWalk_append, ← hr]
  simp only [taxWalk, if_neg (not_le.mpr hpos), if_pos hterm,
    taxWalk_nonpos n l₂ 0 le_rfl]

/-- C4 witness: with net income 200 over brackets `(10%, 100)`, `(20%, 300)`,
`(35%, -1)`, the remainder entering the second bracket is 100 > 0 and
200 ≤ 300, so that bracket takes the whole remainder (tax 20) and the last
bracket reports zero tax. -/
theorem C4_witness :
    (taxWalk 200
        ([{ Percentage := 1/10, Max := 100, Label := "" }] ++
          { Percentage := 2/10, Max := 300, Label := "" } ::
            [{ Percentage := 35/100, Max := -1, Label := "" }]) 200).1 =
      (taxWalk 200 [{ Percentage := 1/10, Max := 100, Label := "" }] 200).1 ++
        { Rate := { Percentage := 2/10, Max := 300, Label := "" },
          Tax := 100 * (2/10) } ::
          [{ Percentage := 35/100, Max := -1, Label := "" }].map
            (fun q => { Rate := q, Tax := 0 }) :=
  C4_terminal_bracket 200 _ _ _ 100
    (by norm_num [taxWalk]) (by norm_num) (by norm_num)

/-- C1 counterexample: take brackets `(10%, 100)`, `(20%, 300)`, `(35%, -1)`
and net income 400. The second bracket is non-terminal (the remainder at its
start is 300 > 0 and 400 extends beyond its bound 300, which is not the
sentinel), yet the code charges it `Max × Percentage = 300 × 20% = 60`, not
the claimed span `(300 - 100) × 20% = 40`, and reduces the remainder to 0,
not by the span (which would leave 100). -/
theorem C1_counterexample :
    (0 : ℚ) < (taxWalk 400 (cRates.take 1) 400).2 ∧
      ((300 : ℚ) < 400 ∧ (300 : ℚ) ≠ -1) ∧
      ((CalculateTaxSummary cTax).TaxStatements.map (fun s => s.Tax)) =
        [10, 60, 0] ∧
      (60 : ℚ) ≠ (300 - 100) * (2/10) ∧
      (taxWalk 400 (cRates.take 2) 400).2 = 0 ∧
      (0 : ℚ) ≠ 300 - (300 - 100) := by
  refine ⟨by norm_num [cRates, taxWalk], ⟨by norm_num, by norm_num⟩, ?_, by norm_num,
    by norm_num [cRates, taxWalk], by norm_num⟩
  norm_num [CalculateTaxSummary, cTax, cRates, calculateTotalAllowance, sumAmounts,
    calculateTaxStatement, taxWalk]

/-- C1 (amended): at any non-terminal bracket (positive remainder at its
start, net income strictly beyond its `Max`, `Max` not the sentinel `-1`),
the code charges `Max × Percentage` — the bracket's absolute upper bound
times its percentage, which equals the bracket span only for the first
bracket — and reduces the remainder by `Max`, not by the span from the
previous bound. -/
theorem C1_nonterminal_full_bound (n : ℚ) (l₁ l₂ : List Rate) (rate : Rate) (r : ℚ)
    (hr : r = (taxWalk n l₁ n).2) (hpos : 0 < r)
    (hbeyond : rate.Max < n) (hsent : rate.Max ≠ -1) :
    (taxWalk n (l₁ ++ rate :: l₂) n).1 =
      (taxWalk n l₁ n).1 ++
        { Rate := rate, Tax := rate.Max * rate.Percentage } ::
          (taxWalk n l₂ (r - rate.Max)).1 := by
  have hcond : ¬ (n ≤ rate.Max ∨ rate.Max = -1) := by
    push_neg
    exact ⟨hbeyond, hsent⟩
  rw [taxWalk_append, ← hr]
  simp only [taxWalk, if_neg (not_le.mpr hpos), if_neg hcond]

/-- C1 witness (amended claim): with net income 400 over the counterexample
brackets, the second bracket has remainder 300 at its start, 300 < 400 and
300 ≠ -1, and the walk charges it 300 × 20% and continues with remainder
300 - 300 = 0. -/
theorem C1_witness :
    (taxWalk 400
        ([{ Percentage := 1/10, Max := 100, Label := "" }] ++
          { Percentage := 2/10, Max := 300, Label := "" } ::
            [{ Percentage := 35/100, Max := -1, Label := "" }]) 400).1 =
      (taxWalk 400 [{ Percentage := 1/10, Max := 100, Label := "" }] 400).1 ++
        { Rate := { Percentage := 2/10, Max := 300, Label := "" },
          Tax := 300 * (2/10) } ::
          (taxWalk 400 [{ Percentage := 35/100, Max := -1, Label := "" }]
            (300 - 300)).1 :=
  C1_nonterminal_full_bound 400 _ _ _ 300
    (by norm_num [taxWalk]) (by norm_num) (by norm_num) (by norm_num)

/-- Two taxpayer states with the same income, configuration and withholding
whose total allowances agree produce the same summary: `CalculateTaxSummary`
reads the submitted allowances only through `calculateTotalAllowance`. -/
theorem summary_eq_of_total_eq (income wht : ℚ) (conf : TaxConfig) (al bl : Allowances)
    (h : calculateTotalAllowance
          { income := income, allowances := al, taxConf := conf, wht := wht } =
        calculateTotalAllowance
          { income := income, allowances := bl, taxConf := conf, wht := wht }) :
    CalculateTaxSummary
        { income := income, allowances := al, taxConf := conf, wht := wht } =
      CalculateTaxSummary
        { income := income, allowances := bl, taxConf := conf, wht := wht } := by
  simp only [CalculateTaxSummary, calculateTaxStatement, h]

/-- C8: for an allowed allowance type with cap `c`, submitting any amount
`a > c` yields the same total allowance, and hence the same tax summary, as
submitting exactly `c`: the clamp of src/tax/tax.go lines 69-71 makes
aggregation idempotent under re-clamping. -/
theorem C8_clamp_idempotent (income wht a c : ℚ) (conf : TaxConfig) (ty : String)
    (l₁ l₂ : Allowances)
    (hc : lookupAmount conf.AllowedAllowances ty = some c) (hac : c < a) :
    calculateTotalAllowance
        { income := income, allowances := l₁ ++ (ty, a) :: l₂, taxConf := conf, wht := wht } =
      calculateTotalAllowance
        { income := income, allowances := l₁ ++ (ty, c) :: l₂, taxConf := conf, wht := wht } ∧
      CalculateTaxSummary
          { income := income, allowances := l₁ ++ (ty, a) :: l₂, taxConf := conf, wht := wht } =
        CalculateTaxSummary
          { income := income, allowances := l₁ ++ (ty, c) :: l₂, taxConf := conf, wht := wht } := by
  have hcontrib : allowanceContribution conf (ty, a) = allowanceContribution conf (ty, c) := by
    by_cases hdef : hasKey conf.DefaultAllowances ty
    · simp [allowanceContribution, hdef]
    · simp only [allowanceContribution, hdef, Bool.false_eq_true, if_false, hc]
      rw [if_pos hac, if_neg (lt_irrefl c)]
  have htot : calculateTotalAllowance
      { income := income, allowances := l₁ ++ (ty, a) :: l₂, taxConf := conf, wht := wht } =
      calculateTotalAllowance
      { income := income, allowances := l₁ ++ (ty, c) :: l₂, taxConf := conf, wht := wht } := by
    simp only [calculateTotalAllowance, List.map_append, List.map_cons,
      List.sum_append, List.sum_cons, hcontrib]
  exact ⟨htot, summary_eq_of_total_eq income wht conf _ _ htot⟩

/-- Configuration used to witness the allowance claims: the probe brackets,
a donation cap of 100 and a default personal allowance of 60. -/
def allowConf : TaxConfig :=
  { Rates := cRates
    AllowedAllowances := [("donation", 100)]
    DefaultAllowances := [("personal", 60)] }

/-- C8 witness: over `allowConf`, submitting a donation of 150 (above the cap
100) gives the same total allowance and the same summary as submitting
exactly 100. -/
theorem C8_witness :
    calculateTotalAllowance
        { income := 400, allowances := [] ++ ("donation", (150 : ℚ)) :: [],
          taxConf := allowConf, wht := 0 } =
      calculateTotalAllowance
        { income := 400, allowances := [] ++ ("donation", (100 : ℚ)) :: [],
          taxConf := allowConf, wht := 0 } ∧
      CalculateTaxSummary
          { income := 400, allowances := [] ++ ("donation", (150 : ℚ)) :: [],
            taxConf := allowConf, wht := 0 } =
        CalculateTaxSummary
          { income := 400, allowances := [] ++ ("donation", (100 : ℚ)) :: [],
            taxConf := allowConf, wht := 0 } :=
  C8_clamp_idempotent 400 0 150 100 allowConf "donation" [] []
    (by rfl) (by norm_num)

/-- C9: an allowance type appearing (exactly once) in `DefaultAllowances`
contributes its default amount exactly once to the total — the total equals
that amount plus the other defaults plus the user contributions — and a
user-submitted entry for it is skipped entirely, so the total allowance and
the summary are unchanged by such resubmission regardless of the submitted
amount (src/tax/tax.go lines 52-58). -/
theorem C9_default_once_resubmission_skipped (income wht x d : ℚ)
    (conf : TaxConfig) (ty : String) (d₁ d₂ l₁ l₂ : Allowances)
    (hd : conf.DefaultAllowances = d₁ ++ (ty, d) :: d₂)
    (honce : ty ∉ (d₁ ++ d₂).map (fun p => p.1)) :
    calculateTotalAllowance
        { income := income, allowances := l₁ ++ (ty, x) :: l₂, taxConf := conf, wht := wht } =
      calculateTotalAllowance
        { income := income, allowances := l₁ ++ l₂, taxConf := conf, wht := wht } ∧
      CalculateTaxSummary
          { income := income, allowances := l₁ ++ (ty, x) :: l₂, taxConf := conf, wht := wht } =
        CalculateTaxSummary
          { income := income, allowances := l₁ ++ l₂, taxConf := conf, wht := wht } ∧
      calculateTotalAllowance
          { income := income, allowances := l₁ ++ l₂, taxConf := conf, wht := wht } =
        d + (sumAmounts (d₁ ++ d₂)
          + ((l₁ ++ l₂).map (allowanceContribution conf)).sum) := by
  have hkey : hasKey conf.DefaultAllowances ty = true := by
    rw [hd]
    simp [hasKey]
  have hcontrib : allowanceContribution conf (ty, x) = 0 := by
    simp [allowanceContribution, hkey]
  have htot : calculateTotalAllowance
      { income := income, allowances := l₁ ++ (ty, x) :: l₂, taxConf := conf, wht := wht } =
      calculateTotalAllowance
      { income := income, allowances := l₁ ++ l₂, taxConf := conf, wht := wht } := by
    simp only [calculateTotalAllowance, List.map_append, List.map_cons,
      List.sum_append, List.sum_cons, hcontrib]
    ring
  refine ⟨htot, summary_eq_of_total_eq income wht conf _ _ htot, ?_⟩
  simp only [calculateTotalAllowance, sumAmounts, hd, List.map_append,
    List.map_cons, List.sum_append, List.sum_cons]
  ring

/-- C9 witness: over `allowConf`, resubmitting the default type `personal`
with amount 50 changes neither the total allowance nor the summary, and the
total is the default 60 plus the (clamped) donation 30. -/
theorem C9_witness :
    (calculateTotalAllowance
        { income := 400, allowances := [("donation", 30)] ++ ("personal", (50 : ℚ)) :: [],
          taxConf := allowConf, wht := 0 } =
      calculateTotalAllowance
        { income := 400, allowances := [("donation", 30)] ++ [],
          taxConf := allowConf, wht := 0 }) ∧
      (CalculateTaxSummary
          { income := 400, allowances := [("donation", 30)] ++ ("personal", (50 : ℚ)) :: [],
            taxConf := allowConf, wht := 0 } =
        CalculateTaxSummary
          { income := 400, allowances := [("donation", 30)] ++ [],
            taxConf := allowConf, wht := 0 }) ∧
      calculateTotalAllowance
          { income := 400, allowances := [("donation", 30)] ++ [],
            taxConf := allowConf, wht := 0 } =
        60 + (sumAmounts ([] ++ [])
          + ((([("donation", (30 : ℚ))] : Allowances) ++ []).map
              (allowanceContribution allowConf)).sum) :=
  C9_default_once_resubmission_skipped 400 0 50 60 allowConf "personal" [] [] [("donation", 30)] []
    (by rfl) (by simp)

/-- State-passing embedding of `calculateTotalAllowance` as a method on the
receiver `t`: the Go body (src/tax/tax.go lines 45-77) contains no assignment
to any field of `t`, so the receiver comes back unchanged. -/
def calculateTotalAllowanceS (t : Tax) : ℚ × Tax :=
  (sumAmounts t.taxConf.DefaultAllowances
    + (t.allowances.map (allowanceContribution t.taxConf)).sum, t)

/-- State-passing embedding of `calculateTaxStatement` as a method on the
receiver `t`: the Go body (src/tax/tax.go lines 84-128) contains no
assignment to any field of `t`. -/
def calculateTaxStatementS (t : Tax) (netIncome : ℚ) : List TaxStatement × Tax :=
  ((taxWalk netIncome t.taxConf.Rates netIncome).1, t)

/-- State-passing embedding of `CalculateTaxSummary` (src/tax/tax.go lines
136-168), threading the receiver through both method calls it performs. -/
def CalculateTaxSummaryS (t : Tax) : TaxSummary × Tax :=
  let r1 := calculateTotalAllowanceS t
  let t1 := r1.2
  let netIncome := t1.income - r1.1
  if netIncome ≤ 0 then
    ({ TaxStatements := [], Tax := 0, Refund := t1.wht }, t1)
  else
    let r2 := calculateTaxStatementS t1 netIncome
    let t2 := r2.2
    let tax := (r2.1.map (fun s => s.Tax)).sum
    if tax ≤ t2.wht then
      ({ TaxStatements := r2.1, Tax := 0, Refund := t2.wht - tax }, t2)
    else
      ({ TaxStatements := r2.1, Tax := tax - t2.wht, Refund := 0 }, t2)

/-- C10: `CalculateTaxSummary` is read-only on the taxpayer state: the
state-passing embedding returns the receiver with income, submitted
allowances, configuration and withholding unchanged, its result coincides
with the pure `CalculateTaxSummary`, and calling it again on the returned
state yields the same summary. -/
theorem C10_read_only (t : Tax) :
    ((CalculateTaxSummaryS t).2.income = t.income ∧
      (CalculateTaxSummaryS t).2.allowances = t.allowances ∧
      (CalculateTaxSummaryS t).2.taxConf = t.taxConf ∧
      (CalculateTaxSummaryS t).2.wht = t.wht) ∧
      (CalculateTaxSummaryS t).1 = CalculateTaxSummary t ∧
      (CalculateTaxSummaryS ((CalculateTaxSummaryS t).2)).1 =
        (CalculateTaxSummaryS t).1 := by
  have hstate : (CalculateTaxSummaryS t).2 = t := by
    simp only [CalculateTaxSummaryS, calculateTotalAllowanceS, calculateTaxStatementS]
    split_ifs <;> rfl
  have hfst : (CalculateTaxSummaryS t).1 = CalculateTaxSummary t := by
    simp only [CalculateTaxSummaryS, calculateTotalAllowanceS, calculateTaxStatementS,
      CalculateTaxSummary, calculateTotalAllowance, calculateTaxStatement]
    split_ifs <;> rfl
  exact ⟨⟨by rw [hstate], by rw [hstate], by rw [hstate], by rw [hstate]⟩,
    hfst, by rw [hstate]⟩

end TaxGo
